import Mathlib

/-!
Verification of the voice-interaction controller of the Kisaan-Suvidha-Kendra
kiosk. The definitions below are a shallow embedding of:

* `modern-kiosk-ui/src/components/ProductImageCard.jsx` (the `CompactControls`
  component): the main speech-recognition instance, the always-on wake-word
  listener, the echo-prevention effect and the main/wake coordination effect,
  including the 500 ms re-arm `setTimeout`s and the values their closures
  capture;
* `modern-kiosk-ui/src/utils/agricultureContentEngine.js`: the
  `avatar-speaking-start` / `avatar-speaking-end` handlers and
  `window.handleWakeWord`;
* `frontend/components/voice-assistant.tsx`: the `startSilenceDetection`
  loop (speech detection, frequency-variation detection, silence auto-stop,
  fallback timeout);
* `modern-kiosk-ui/src/services/kisaanService.js` (`WebSocketVoiceService`):
  connect/onopen/onclose, reconnect policy, `send`, recording chunks.

Machine integers do not occur; all JS numbers involved are small naturals or
normalized loudness values, modelled as `Nat` and `Rat`.
-/

namespace Kiosk

/-! ## JS string primitives (ASCII fragment used by the wake-word matcher) -/

/-- JS `String.prototype.toLowerCase`, on the ASCII strings that occur here. -/
def lowerL (l : List Char) : List Char := l.map Char.toLower

/-- Does the list start with the given pattern? -/
def startsWithL : List Char → List Char → Bool
  | _, [] => true
  | [], _ :: _ => false
  | c :: cs, p :: ps => c == p && startsWithL cs ps

/-- JS `String.prototype.includes`: `p` occurs contiguously in `s`. -/
def containsSub : List Char → List Char → Bool
  | [], p => p.isEmpty
  | c :: rest, p => startsWithL (c :: rest) p || containsSub rest p

/-- JS whitespace for `trim` (the characters that occur in transcripts). -/
def isWs (c : Char) : Bool := c == ' ' || c == '\t' || c == '\n' || c == '\r'

/-- JS `String.prototype.trim`. -/
def trimL (l : List Char) : List Char :=
  ((l.dropWhile isWs).reverse.dropWhile isWs).reverse

/-- One left-to-right pass of `String.prototype.replace(new RegExp(word, 'gi'), '')`:
at each position, if the lowercased text starts with the lowercased pattern the
match is deleted and scanning resumes after it, else the character is kept.
`fuel` is the length of the scanned text (each step consumes at least one
character). -/
def replCIAux (p : List Char) : Nat → List Char → List Char
  | 0, s => s
  | _ + 1, [] => []
  | fuel + 1, c :: rest =>
    if !p.isEmpty && startsWithL (lowerL (c :: rest)) (lowerL p) then
      replCIAux p fuel ((c :: rest).drop p.length)
    else
      c :: replCIAux p fuel rest

/-- Case-insensitive global replacement of `p` by the empty string in `s`. -/
def replCI (p s : List Char) : List Char := replCIAux p s.length s

/-! ## Wake-word listener result handler
(`wakeWordListener.onresult`, ProductImageCard.jsx lines 237-296) -/

/-- The fixed accepted wake phrases (ProductImageCard.jsx line 274). -/
def wakeWords : List String :=
  ["hey mira", "hi mira", "hello mira", "hey meera", "hi meera", "ok mira", "okay mira"]

/-- Outcome of one wake-listener result batch. The two `dropped…` outcomes are
produced by the guard clauses that run before any wake-phrase matching. -/
inductive WakeAction where
  /-- Discarded because main recognition is active (`currentlyListening`). -/
  | droppedListening
  /-- Discarded because the avatar is speaking (echo prevention). -/
  | droppedSpeaking
  /-- Combined transcript empty or shorter than 2 characters. -/
  | tooShort
  /-- No wake phrase contained in the combined transcript. -/
  | noMatch
  /-- Wake phrase plus residual text: the residual is forwarded directly as a
  command via `window.handleVoiceInput`. -/
  | command (text : String)
  /-- Wake phrase with empty residual: `window.handleWakeWord` fires. -/
  | wakeOnly
  deriving DecidableEq, Repr

/-- The body of `wakeWordListener.onresult`: guard clauses, then combined
transcript, then wake-phrase containment check, then stripping. Matching is
done on `(final + ' ' + interim).toLowerCase().trim()`; stripping is applied
to the raw `finalTranscript` (each wake word removed case-insensitively, with
a `trim()` after each removal). -/
def wakeOnResult (currentlyListening currentlySpeaking : Bool)
    (finalTranscript interimTranscript : String) : WakeAction :=
  if currentlyListening then .droppedListening
  else if currentlySpeaking then .droppedSpeaking
  else
    let combined :=
      trimL (lowerL (finalTranscript.data ++ [' '] ++ interimTranscript.data))
    if combined.length < 2 then .tooShort
    else if wakeWords.any (fun w => containsSub combined w.data) then
      let clean := wakeWords.foldl (fun acc w => trimL (replCI w.data acc))
        finalTranscript.data
      if clean.isEmpty then .wakeOnly else .command (String.mk clean)
    else .noMatch

/-! ## Silence detection
(`startSilenceDetection` / `checkSilence`, voice-assistant.tsx lines 471-558)

`checkSilence` runs on every third animation frame; one `AudioSample` below is
one executed check, and `delta` is the interval between consecutive checks
(the "sample interval", about 50 ms). The check with index `i` happens at
elapsed time `(i+1) * delta` after `startTime`. -/

/-- One frequency-data read: the normalized loudness `average / 255` and the
`max - min` variation over the frequency bins. -/
structure AudioSample where
  level : Rat
  variation : Nat
  deriving DecidableEq, Repr

/-- The mutable refs driving one utterance:
`speechDetectedRef`, `silenceStartTimeRef`, plus the stop signal. `completedAt`
records the elapsed time at which `stopRecording()` was called (the single
"utterance complete" signal); `completions` counts how many times it fired. -/
structure DetectorState where
  speechDetected : Bool
  silenceStartedAt : Option Nat
  completedAt : Option Nat
  completions : Nat
  deriving DecidableEq, Repr

def detectorInit : DetectorState :=
  { speechDetected := false, silenceStartedAt := none
    completedAt := none, completions := 0 }

/-- `SILENCE_THRESHOLD = 0.03` (voice-assistant.tsx line 85). -/
def SILENCE_THRESHOLD : Rat := mkRat 3 100

/-- `SILENCE_DURATION = 3000` ms (line 86). -/
def SILENCE_DURATION : Nat := 3000

/-- `SPEECH_THRESHOLD = 0.05` (line 87). -/
def SPEECH_THRESHOLD : Rat := mkRat 5 100

/-- `FALLBACK_TIMEOUT = 10000` ms (line 88). -/
def FALLBACK_TIMEOUT : Nat := 10000

/-- One executed `checkSilence` body, in source order: once `stopRecording` has
fired the loop is no longer scheduled (`isRecordingRef` is false); otherwise
the fallback-timeout check runs first, then loudness speech detection, then
frequency-variation speech detection (only after 4000 ms), then the silence
timer. -/
def checkSilence (delta i : Nat) (s : AudioSample) (st : DetectorState) :
    DetectorState :=
  if st.completedAt.isSome then st
  else
    let elapsed := (i + 1) * delta
    if st.speechDetected = false ∧ FALLBACK_TIMEOUT < elapsed then
      { st with completedAt := some elapsed, completions := st.completions + 1 }
    else
      let st1 :=
        if st.speechDetected = false ∧ SPEECH_THRESHOLD < s.level then
          { st with speechDetected := true, silenceStartedAt := none }
        else st
      let st2 :=
        if st1.speechDetected = false ∧ 4000 < elapsed ∧ 10 < s.variation then
          { st1 with speechDetected := true, silenceStartedAt := none }
        else st1
      if st2.speechDetected then
        if s.level < SILENCE_THRESHOLD then
          match st2.silenceStartedAt with
          | none => { st2 with silenceStartedAt := some elapsed }
          | some t0 =>
            if SILENCE_DURATION ≤ elapsed - t0 then
              { st2 with completedAt := some elapsed
                         completions := st2.completions + 1 }
            else st2
        else
          { st2 with silenceStartedAt := none }
      else st2

/-- The detector state after the first `n` checks on the sample stream `f`. -/
def runDetector (delta : Nat) (f : Nat → AudioSample) : Nat → DetectorState
  | 0 => detectorInit
  | n + 1 => checkSilence delta n (f n) (runDetector delta f n)

/-! ## The listener coordination state machine
(`CompactControls` in ProductImageCard.jsx together with the avatar-speaking
handlers and `window.handleWakeWord` in agricultureContentEngine.js)

The browser main thread is modelled as a deterministic event loop: external
events carry a timestamp, and every `setTimeout` callback that is due fires
(earliest first) before the next external event is handled. Each scheduled
re-arm timer records the values of `isListening` / `avatarSpeaking` /
`conversationMode` captured by its closure at scheduling time, exactly as the
JS closures do; the `onend`-path timers and the continuous-mode auto-enable
instead read fresh values through refs, as the source does. -/

/-- `conversationMode`: `'wake-word'` or `'continuous'`. -/
inductive ConvMode where
  | wakeWord
  | continuous
  deriving DecidableEq, Repr

/-- A scheduled `setTimeout` callback. -/
inductive TimerKind where
  /-- The 500 ms wake-listener restart scheduled by the avatar-speaking
  management effect (ProductImageCard.jsx lines 383-391). Its guard re-checks
  the closure-captured `isListening`, `avatarSpeaking` and `conversationMode`
  (not the refs), plus the fresh `wakeWordListenerRef`. -/
  | echoRearm (capListening capSpeaking : Bool) (capMode : ConvMode)
  /-- The 500 ms wake-listener restart scheduled by the main/wake coordination
  effect (lines 437-446). Its guard re-checks the closure-captured
  `isListening` and `avatarSpeaking`, plus the fresh `wakeWordListenerRef`. -/
  | coordRearm (capListening capSpeaking : Bool)
  /-- The 1000 ms continuous-mode auto-enable scheduled by
  `handleAvatarSpeakingEnd` (agricultureContentEngine.js lines 527-549); it
  reads fresh values through `conversationModeRef` and `isListeningRef`. -/
  | contAutoEnable
  deriving DecidableEq, Repr

structure Timer where
  fireAt : Nat
  kind : TimerKind
  deriving DecidableEq, Repr

/-- The coordination state: React state/refs (`avatarSpeaking`, `isListening`,
`conversationMode`), the two recognition-engine instances (running flag and
configured locale), whether `wakeWordListenerRef.current` is non-null, the
session language, the clock and the pending timers. -/
structure KioskState where
  now : Nat
  avatarSpeaking : Bool
  isListening : Bool
  conversationMode : ConvMode
  wakeRunning : Bool
  mainRunning : Bool
  wakeRefAttached : Bool
  mainLang : String
  wakeLang : String
  sessionLanguage : String
  timers : List Timer
  deriving DecidableEq, Repr

/-- Cleanup run by the wake-listener creation effect when `conversationMode`
leaves `'wake-word'` (ProductImageCard.jsx lines 211-222 and 355-364): the
wake listener is stopped and `wakeWordListenerRef.current` is nulled. -/
def modeChangeEffect (prev st : KioskState) : KioskState :=
  if prev.conversationMode ≠ st.conversationMode ∧
      st.conversationMode = .continuous then
    { st with wakeRunning := false, wakeRefAttached := false }
  else st

/-- The avatar-speaking management effect (lines 369-393): while the avatar
speaks, stop the wake listener; when it is silent and main recognition is not
active, schedule a 500 ms restart whose closure captures the current values. -/
def echoEffect (st : KioskState) : KioskState :=
  if st.wakeRefAttached = false ∨ st.conversationMode ≠ .wakeWord then st
  else if st.avatarSpeaking then { st with wakeRunning := false }
  else if st.isListening = false then
    { st with timers := st.timers ++
        [⟨st.now + 500,
          .echoRearm st.isListening st.avatarSpeaking st.conversationMode⟩] }
  else st

/-- The main/wake coordination effect (lines 397-449): when `isListening` is
true, stop the wake listener (wake-word mode only) and start main recognition;
when false, stop main recognition and, in wake-word mode with the avatar
silent, schedule a 500 ms wake-listener restart capturing the current values. -/
def coordEffect (st : KioskState) : KioskState :=
  if st.isListening then
    let st1 :=
      if st.conversationMode = .wakeWord ∧ st.wakeRefAttached then
        { st with wakeRunning := false }
      else st
    { st1 with mainRunning := true }
  else
    let st1 := { st with mainRunning := false }
    if st1.conversationMode = .wakeWord ∧ st1.avatarSpeaking = false then
      { st1 with timers := st1.timers ++
          [⟨st1.now + 500, .coordRearm st1.isListening st1.avatarSpeaking⟩] }
    else st1

/-- Re-render after a state update: the three effects whose dependency arrays
contain `avatarSpeaking` / `isListening` / `conversationMode` re-run, in
declaration order, iff one of those dependencies changed. -/
def runEffects (prev st : KioskState) : KioskState :=
  if prev.avatarSpeaking = st.avatarSpeaking ∧
      prev.isListening = st.isListening ∧
      prev.conversationMode = st.conversationMode then st
  else coordEffect (echoEffect (modeChangeEffect prev st))

/-- Fire one due timer. `SpeechRecognition.start()` on an already-running
engine throws and is caught, so starting is idempotent. -/
def fireTimer (st : KioskState) (k : TimerKind) : KioskState :=
  match k with
  | .echoRearm capL capS capM =>
    if st.wakeRefAttached ∧ capL = false ∧ capS = false ∧ capM = .wakeWord then
      { st with wakeRunning := true }
    else st
  | .coordRearm capL capS =>
    if st.wakeRefAttached ∧ capL = false ∧ capS = false then
      { st with wakeRunning := true }
    else st
  | .contAutoEnable =>
    if st.conversationMode = .continuous ∧ st.isListening = false then
      let prev := st
      runEffects prev { st with isListening := true }
    else st

/-- The due timer with the smallest `fireAt ≤ limit` (ties: scheduling order). -/
def minDue (limit : Nat) : List Timer → Option Timer
  | [] => none
  | t :: rest =>
    match minDue limit rest with
    | none => if t.fireAt ≤ limit then some t else none
    | some u =>
      if t.fireAt ≤ limit ∧ t.fireAt ≤ u.fireAt then some t else some u

/-- Remove the first occurrence of a timer from the queue. -/
def removeTimer (t : Timer) : List Timer → List Timer
  | [] => []
  | u :: rest => if u = t then rest else u :: removeTimer t rest

/-- Fire every pending timer due at or before `limit`, earliest first,
advancing the clock to each timer's fire time. -/
def fireDue (limit : Nat) : Nat → KioskState → KioskState
  | 0, st => st
  | fuel + 1, st =>
    match minDue limit st.timers with
    | none => st
    | some t =>
      fireDue limit fuel
        (fireTimer { st with now := t.fireAt, timers := removeTimer t st.timers }
          t.kind)

/-- External events of the coordination machine. -/
inductive KioskEv where
  /-- The `avatar-speaking-start` window event. -/
  | avatarStart
  /-- The `avatar-speaking-end` window event. -/
  | avatarEnd
  /-- The manual microphone button (speech-recognition path of
  `handleMicClick`). -/
  | micClick
  /-- `recognition.onend` of the single-utterance main recognition. -/
  | mainEnded
  /-- A result batch delivered by the wake-word listener engine. -/
  | wakeBatch (finalT interimT : String)
  /-- A mid-session language change (updates the session language only). -/
  | changeLanguage (lang : String)
  /-- A no-op instant that lets due timers fire. -/
  | tick
  deriving DecidableEq, Repr

/-- `window.handleWakeWord` (agricultureContentEngine.js lines 572-580):
switch to continuous conversation mode and start listening, unless already
listening or the avatar is speaking. -/
def handleWakeWord (st : KioskState) : KioskState :=
  if st.isListening = false ∧ st.avatarSpeaking = false then
    runEffects st
      { st with conversationMode := .continuous, isListening := true }
  else st

/-- The state update performed by `handleAvatarSpeakingEnd`: clear
`avatarSpeaking`, and in continuous conversation mode schedule the 1000 ms
auto-enable. -/
def avatarEndUpdate (st : KioskState) : KioskState :=
  if st.conversationMode = .continuous then
    { st with avatarSpeaking := false
              timers := st.timers ++ [⟨st.now + 1000, .contAutoEnable⟩] }
  else { st with avatarSpeaking := false }

/-- Handle one external event (due timers have already fired). -/
def handleEv (st : KioskState) : KioskEv → KioskState
  | .avatarStart =>
    runEffects st { st with avatarSpeaking := true, isListening := false }
  | .avatarEnd => runEffects st (avatarEndUpdate st)
  | .micClick =>
    if st.isListening then
      runEffects st { st with mainRunning := false, isListening := false }
    else
      runEffects st { st with mainRunning := true, isListening := true }
  | .mainEnded =>
    runEffects st { st with mainRunning := false, isListening := false }
  | .wakeBatch f i =>
    if st.wakeRunning = false then st
    else
      match wakeOnResult st.isListening st.avatarSpeaking f i with
      | .wakeOnly => handleWakeWord st
      | _ => st
  | .changeLanguage l => { st with sessionLanguage := l }
  | .tick => st

/-- Process one timestamped event: fire due timers, advance the clock, run the
handler. -/
def stepAt (st : KioskState) (T : Nat) (ev : KioskEv) : KioskState :=
  let st1 := fireDue T (st.timers.length + 4) st
  handleEv { st1 with now := T } ev

/-- Run a timestamped event trace. -/
def runTrace (st : KioskState) : List (Nat × KioskEv) → KioskState
  | [] => st
  | (T, ev) :: rest => runTrace (stepAt st T ev) rest

/-- The state right after `CompactControls` mounts with `isStarted` true in
wake-word mode: both engines are created with `lang = 'en-US'` (lines 158 and
231), the wake listener is started (line 350), and the mount run of the two
effects has scheduled their initial 500 ms restart timers. -/
def initState : KioskState :=
  { now := 0, avatarSpeaking := false, isListening := false
    conversationMode := .wakeWord
    wakeRunning := true, mainRunning := false, wakeRefAttached := true
    mainLang := "en-US", wakeLang := "en-US", sessionLanguage := "hindi"
    timers := [⟨500, .echoRearm false false .wakeWord⟩,
               ⟨500, .coordRearm false false⟩] }

/-! ## The streaming transport
(`WebSocketVoiceService` in kisaanService.js) -/

/-- Caller-facing callbacks of `WebSocketVoiceService`. -/
inductive WsCallback where
  | connected
  | disconnected
  | errorMsg (msg : String)
  deriving DecidableEq, Repr

/-- Client-to-server messages (the wire protocol). -/
inductive OutMsg where
  | start (sessionId language : String)
  | audio (data : String)
  | stop
  | changeLang (language : String)
  deriving DecidableEq, Repr

/-- The service's connection-related fields. -/
structure WsState where
  isConnected : Bool
  reconnectAttempts : Nat
  sessionId : String
  language : String
  deriving DecidableEq, Repr

/-- `this.maxReconnectAttempts = 5` (kisaanService.js line 265). -/
def maxReconnectAttempts : Nat := 5

/-- `this.reconnectDelay = 2000` ms (line 266). -/
def reconnectDelay : Nat := 2000

/-- What one `ws.onclose` run produces: the new service state, the delay of
the reconnect it scheduled (if any), and the callbacks it invoked. -/
structure CloseOutcome where
  state : WsState
  scheduledReconnectDelay : Option Nat
  callbacks : List WsCallback
  deriving DecidableEq, Repr

/-- `ws.onclose` (lines 353-369): clear `isConnected`, invoke the disconnect
callback, and, while `reconnectAttempts < maxReconnectAttempts`, increment the
counter and schedule `connect` after `reconnectDelay * reconnectAttempts` ms.
Beyond the cap nothing else happens. -/
def wsOnClose (st : WsState) : CloseOutcome :=
  let st1 := { st with isConnected := false }
  if st1.reconnectAttempts < maxReconnectAttempts then
    let attempt := st1.reconnectAttempts + 1
    { state := { st1 with reconnectAttempts := attempt }
      scheduledReconnectDelay := some (reconnectDelay * attempt)
      callbacks := [.disconnected] }
  else
    { state := st1, scheduledReconnectDelay := none
      callbacks := [.disconnected] }

/-- Iterate `n` consecutive unexpected closes (every reconnect attempt fails
again immediately), collecting each close's scheduled delay and callbacks. -/
def wsRunCloses (st : WsState) : Nat → WsState × List (Option Nat) × List WsCallback
  | 0 => (st, [], [])
  | n + 1 =>
    let o := wsOnClose st
    let r := wsRunCloses o.state n
    (r.1, o.scheduledReconnectDelay :: r.2.1, o.callbacks ++ r.2.2)

/-- A freshly connected service (after `connect` succeeded once). -/
def wsInit : WsState :=
  { isConnected := true, reconnectAttempts := 0
    sessionId := "sess-1", language := "hindi" }

/-- Count the error callbacks in a callback log. -/
def countErrors (l : List WsCallback) : Nat :=
  l.countP fun c => match c with | .errorMsg _ => true | _ => false

/-- `ws.onopen` (lines 320-335): set `isConnected`, reset the attempt counter,
and send the `start` message carrying session id and language (the `send` at
line 326 succeeds because `isConnected` was just set). -/
def wsOnOpen (st : WsState) : WsState × List OutMsg :=
  let st1 := { st with isConnected := true, reconnectAttempts := 0 }
  (st1, [.start st1.sessionId st1.language])

/-- `send` (lines 429-442) goes through exactly when `isConnected` is set;
nothing else gates outgoing messages. -/
def wsSendAllowed (st : WsState) : Bool := st.isConnected

/-- The `'started'` case of `handleMessage` (lines 385-387): a `console.log`
and nothing else. -/
def wsHandleStarted (st : WsState) : WsState := st

/-- `mediaRecorder.ondataavailable` (lines 476-489): the captured chunk is
sent as an `audio` message iff it is non-empty and the socket is currently
connected; otherwise it is discarded (there is no buffer). -/
def onDataAvailable (connected : Bool) (chunkSize : Nat) : Option Nat :=
  if 0 < chunkSize ∧ connected then some chunkSize else none

/-- The chunks actually delivered over a recording trace; each trace entry is
(socket connected at capture time, chunk size). -/
def deliveredChunks (trace : List (Bool × Nat)) : List Nat :=
  trace.filterMap fun p => onDataAvailable p.1 p.2

/-- All chunks the recorder captured over the trace. -/
def capturedChunks (trace : List (Bool × Nat)) : List Nat :=
  trace.map (·.2)

/-! ## Concrete traces used in the analysis -/

/-- A rapid speak/stop/speak sequence: the avatar speaks at t=1000 ms, stops
at t=1100 ms (which schedules the two 500 ms wake-listener re-arm timers for
t=1600 ms), and starts speaking again at t=1200 ms. At t=1700 ms the pending
timers have fired. -/
def echoViolationTrace : List (Nat × KioskEv) :=
  [(1000, .avatarStart), (1100, .avatarEnd), (1200, .avatarStart), (1700, .tick)]

/-- The user starts the microphone manually at t=1000 ms, the single-utterance
main recognition ends at t=2000 ms (scheduling the 500 ms wake-listener re-arm
for t=2500 ms), and the user clicks the microphone again at t=2200 ms. At
t=2600 ms the pending timers have fired. -/
def exclusionViolationTrace : List (Nat × KioskEv) :=
  [(1000, .micClick), (2000, .mainEnded), (2200, .micClick), (2600, .tick)]

/-- A loudness stream that stays at 0.2 (above `SPEECH_THRESHOLD`) with large
frequency variation: speech is detected at the first check and no silence ever
follows. -/
def loudSample : AudioSample := { level := mkRat 1 5, variation := 50 }

/-- A recording trace in which the second chunk is captured while the socket
is closed (reconnecting): (connected at capture time, chunk size). -/
def reconnectChunkTrace : List (Bool × Nat) := [(true, 5), (false, 7), (true, 3)]

/-! # Theorems -/

/-- C1: the claim says the microphone is never active while the avatar is
speaking, even under rapid speak/stop/speak sequences. On the rapid
sequence `echoViolationTrace` the 500 ms re-arm timers scheduled when the
avatar fell silent at t=1100 ms test their closure-captured
`avatarSpeaking = false` instead of the current value, and restart the
wake-word listener at t=1600 ms although the avatar has been speaking again
since t=1200 ms: the final state has the wake listener running while the
avatar speaks. -/
theorem echo_invariant_violation :
    (runTrace initState echoViolationTrace).avatarSpeaking = true ∧
    (runTrace initState echoViolationTrace).wakeRunning = true := by decide

/-- C2: the claim says at most one of the wake listener, the main listener and
the transport recording is ever active. On `exclusionViolationTrace` the
500 ms wake-listener re-arm scheduled when main recognition ended at t=2000 ms
tests its closure-captured `isListening = false`, and restarts the wake
listener at t=2500 ms although the user manually restarted main recognition at
t=2200 ms: the final state has both listeners running at once. -/
theorem mutual_exclusion_violation :
    (runTrace initState exclusionViolationTrace).wakeRunning = true ∧
    (runTrace initState exclusionViolationTrace).mainRunning = true := by decide

set_option maxRecDepth 100000 in
/-- C3 counterexample: the claim says every started utterance produces exactly
one completion signal, never zero, bounded by `fallbackTimeout`. On a stream
that stays loud (0.2) from the first check, speech is detected immediately, so
the fallback branch is disabled and the silence branch never starts a timer:
after 221 checks at a 50 ms cadence (elapsed 11050 ms, past
`FALLBACK_TIMEOUT` plus one sample interval) no completion has fired. -/
theorem single_completion_counterexample :
    FALLBACK_TIMEOUT + 50 < 221 * 50 ∧
    (runDetector 50 (fun _ => loudSample) 221).completions = 0 := by decide

/-- C5 counterexample: the claim says that once `maxReconnectAttempts`
consecutive failures are reached, a terminal `TransportExhausted` error is
surfaced to the caller exactly once. Running six consecutive unexpected closes
from a fresh connection reaches the cap (five scheduled reconnects with
delays 2000·1 … 2000·5 ms, none on the sixth close), yet the number of error
callbacks surfaced is 0, not 1: the `onclose` handler only ever invokes the
generic disconnect callback. -/
theorem transport_exhausted_counterexample :
    (wsRunCloses wsInit 6).1.reconnectAttempts = maxReconnectAttempts ∧
    (wsRunCloses wsInit 6).2.1 =
      [some 2000, some 4000, some 6000, some 8000, some 10000, none] ∧
    countErrors (wsRunCloses wsInit 6).2.2 = 0 ∧
    ¬ countErrors (wsRunCloses wsInit 6).2.2 = 1 := by decide

/-- C7: wake-phrase matching is a case-insensitive containment check; on a
match the phrase is stripped and a non-empty residual is forwarded directly as
a command, while an empty residual fires the wake-only event, which switches
`conversationMode` to continuous and starts active recording. In particular
"hey mira what is the price of wheat" forwards "what is the price of wheat"
directly (the state is unchanged: no separate listening round-trip), and a
bare "hey mira" turns on continuous mode with main recognition running. -/
theorem wake_then_command :
    wakeOnResult false false "hey mira what is the price of wheat" "" =
      .command "what is the price of wheat" ∧
    wakeOnResult false false "Hey Mira what is the price of wheat" "" =
      .command "what is the price of wheat" ∧
    wakeOnResult false false "hey mira" "" = .wakeOnly ∧
    handleEv initState (.wakeBatch "hey mira what is the price of wheat" "") =
      initState ∧
    (handleEv initState (.wakeBatch "hey mira" "")).conversationMode =
      .continuous ∧
    (handleEv initState (.wakeBatch "hey mira" "")).isListening = true ∧
    (handleEv initState (.wakeBatch "hey mira" "")).mainRunning = true := by
  decide

/-- C8 counterexample: the claim says every audio chunk captured while the
transport records is delivered to the server, even while the socket is closed
or reconnecting. On `reconnectChunkTrace` the chunk of size 7 is captured
while the socket is disconnected and is silently discarded —
`ondataavailable` sends a chunk only when `isConnected` holds and keeps no
buffer. -/
theorem chunk_dropped_counterexample :
    capturedChunks reconnectChunkTrace = [5, 7, 3] ∧
    deliveredChunks reconnectChunkTrace = [5, 3] ∧
    7 ∈ capturedChunks reconnectChunkTrace ∧
    ¬ 7 ∈ deliveredChunks reconnectChunkTrace := by decide

/-- C9 counterexample: the claim says the connection is considered usable only
upon receipt of the server's `started` acknowledgment. After `onopen` alone —
no `started` message has been handled — `send` is already allowed, because
`onopen` itself sets `isConnected` (and uses it to send the `start` message
carrying the session id and language). -/
theorem usable_without_started_ack :
    (wsOnOpen { isConnected := false, reconnectAttempts := 2
                sessionId := "sess-1", language := "hindi" }).2 =
      [OutMsg.start "sess-1" "hindi"] ∧
    wsSendAllowed
      (wsOnOpen { isConnected := false, reconnectAttempts := 2
                  sessionId := "sess-1", language := "hindi" }).1 = true := by
  decide

/-- C5 (amended): on an unexpected close the transport schedules a reconnect
with delay `attempt × 2000 ms` (linear backoff) exactly while fewer than
`maxReconnectAttempts = 5` consecutive failures have occurred; beyond the cap
no reconnect is scheduled, and the only thing ever surfaced to the caller by
the close handler is the generic disconnect callback — in particular no
dedicated terminal transport-exhausted error exists. -/
theorem reconnect_policy (st : WsState) :
    (wsOnClose st).scheduledReconnectDelay =
      (if st.reconnectAttempts < maxReconnectAttempts then
        some (reconnectDelay * (st.reconnectAttempts + 1)) else none) ∧
    (wsOnClose st).state.reconnectAttempts =
      (if st.reconnectAttempts < maxReconnectAttempts then
        st.reconnectAttempts + 1 else st.reconnectAttempts) ∧
    (wsOnClose st).state.isConnected = false ∧
    (wsOnClose st).callbacks = [.disconnected] := by
  unfold wsOnClose
  split_ifs with h <;> simp [h]

/-- C8 (amended): a chunk captured by the recorder is delivered to the server
exactly when it is non-empty and the socket is connected at capture time;
chunks captured while the socket is closed or reconnecting are discarded. -/
theorem delivered_iff_connected (trace : List (Bool × Nat)) :
    deliveredChunks trace =
      (trace.filter fun p => p.1 && decide (0 < p.2)).map (·.2) := by
  induction trace with
  | nil => rfl
  | cons p rest ih =>
    unfold deliveredChunks at ih ⊢
    cases hc : p.1 <;> cases hs : decide (0 < p.2) <;>
      simp_all [onDataAvailable, List.filterMap_cons, List.filter_cons]

/-- C9 (amended): on socket open the client sends a `start` message carrying
the session id and language, and the connection counts as usable (able to
send) from that moment on; the server's `started` acknowledgment changes
nothing and is not awaited. -/
theorem start_message_and_usability (st : WsState) :
    (wsOnOpen st).2 = [OutMsg.start st.sessionId st.language] ∧
    wsSendAllowed (wsOnOpen st).1 = true ∧
    wsHandleStarted (wsOnOpen st).1 = (wsOnOpen st).1 := by
  simp [wsOnOpen, wsSendAllowed, wsHandleStarted]

/-- C6: a wake-listener result batch that arrives while main recognition is
active is discarded before wake-phrase matching (`droppedListening`), and one
that arrives while the avatar is speaking likewise (`droppedSpeaking`); as a
state transition, a batch delivered while `isListening` holds — the same wake
phrase a second time included — leaves the coordination state unchanged. -/
theorem wake_discard (st : KioskState) (b : Bool) (f i : String)
    (h : st.isListening = true) :
    wakeOnResult true b f i = .droppedListening ∧
    wakeOnResult false true f i = .droppedSpeaking ∧
    handleEv st (.wakeBatch f i) = st := by
  refine ⟨rfl, rfl, ?_⟩
  unfold handleEv
  cases hw : st.wakeRunning with
  | false => simp
  | true => simp [h, wakeOnResult]

/-- Witness for `wake_discard`: in the concrete active-recording state the
batch "hey mira" is a no-op, twice over. -/
theorem wake_discard_witness :
    ({ initState with isListening := true } : KioskState).isListening = true ∧
    handleEv { initState with isListening := true }
        (.wakeBatch "hey mira" "") =
      { initState with isListening := true } ∧
    handleEv
        (handleEv { initState with isListening := true }
          (.wakeBatch "hey mira" ""))
        (.wakeBatch "hey mira" "") =
      { initState with isListening := true } := by
  have h1 := (wake_discard { initState with isListening := true } false
    "hey mira" "" rfl).2.2
  exact ⟨rfl, h1, by rw [h1, h1]⟩

/-- Once a completion has fired, every further check is a no-op (the loop
returns before touching the state: `isRecordingRef` is already false). -/
theorem checkSilence_frozen (delta i : Nat) (s : AudioSample)
    (st : DetectorState) (h : st.completedAt.isSome) :
    checkSilence delta i s st = st := by
  unfold checkSilence
  rw [if_pos h]

/-- The completion counter always equals 1 or 0 according to whether
`completedAt` is set: the two only ever change together. -/
theorem checkSilence_completions_inv (delta i : Nat) (s : AudioSample)
    (st : DetectorState)
    (h : st.completions = if st.completedAt.isSome then 1 else 0) :
    (checkSilence delta i s st).completions =
      if (checkSilence delta i s st).completedAt.isSome then 1 else 0 := by
  obtain ⟨sd, ss, ca, cc⟩ := st
  cases ca with
  | some t =>
    rw [checkSilence_frozen delta i s ⟨sd, ss, some t, cc⟩ (by simp)]
    exact h
  | none =>
    simp only [Option.isSome_none, Bool.false_eq_true, if_false] at h
    subst h
    unfold checkSilence
    simp only [Option.isSome_none, Bool.false_eq_true, if_false]
    by_cases hf : sd = false ∧ FALLBACK_TIMEOUT < (i + 1) * delta
    · simp [hf]
    · rw [if_neg hf]
      by_cases h1 : sd = false ∧ SPEECH_THRESHOLD < s.level
      · rw [if_pos h1]
        split_ifs <;> cases ss <;> simp_all
      · rw [if_neg h1]
        by_cases h2 : sd = false ∧ 4000 < (i + 1) * delta ∧ 10 < s.variation
        · rw [if_pos h2]
          split_ifs <;> cases ss <;> simp_all
        · rw [if_neg h2]
          cases sd
          · simp
          · split_ifs <;> cases ss <;>
              try simp_all
            all_goals (split_ifs at * <;> simp_all)

/-- The detector never counts more than one completion on any stream. -/
theorem runDetector_completions_inv (delta : Nat) (f : Nat → AudioSample)
    (n : Nat) :
    (runDetector delta f n).completions =
      if (runDetector delta f n).completedAt.isSome then 1 else 0 := by
  induction n with
  | zero => rfl
  | succ n ih => exact checkSilence_completions_inv delta n (f n) _ ih

/-- C3 (amended): for every started utterance at most one "utterance complete"
signal is emitted — never two. (Exactly one, within `fallbackTimeout`, is
guaranteed only while no speech has been detected; a stream that keeps
loudness above `silenceThreshold` after speech is detected never auto-stops,
as `single_completion_counterexample` shows.) -/
theorem at_most_one_completion (delta : Nat) (f : Nat → AudioSample)
    (n : Nat) : (runDetector delta f n).completions ≤ 1 := by
  rw [runDetector_completions_inv]
  split <;> simp

/-- On a quiet stream (loudness at most `SPEECH_THRESHOLD`, frequency
variation at most 10) the detector state stays initial through the first
`FALLBACK_TIMEOUT / delta` checks: no branch of `checkSilence` fires. -/
theorem runDetector_quiet (delta : Nat) (f : Nat → AudioSample)
    (hq : ∀ j, (f j).level ≤ SPEECH_THRESHOLD ∧ (f j).variation ≤ 10) :
    ∀ i, i ≤ FALLBACK_TIMEOUT / delta → runDetector delta f i = detectorInit := by
  intro i
  induction i with
  | zero => intro _; rfl
  | succ i ih =>
    intro hle
    have h1 : runDetector delta f i = detectorInit := ih (Nat.le_of_succ_le hle)
    show checkSilence delta i (f i) (runDetector delta f i) = detectorInit
    rw [h1]
    have helapsed : ¬ FALLBACK_TIMEOUT < (i + 1) * delta := by
      have h2 : (i + 1) * delta ≤ (FALLBACK_TIMEOUT / delta) * delta :=
        Nat.mul_le_mul_right delta hle
      have h3 : (FALLBACK_TIMEOUT / delta) * delta ≤ FALLBACK_TIMEOUT :=
        Nat.div_mul_le_self FALLBACK_TIMEOUT delta
      omega
    have hlev : ¬ SPEECH_THRESHOLD < (f i).level := not_lt.mpr (hq i).1
    have hvar : ¬ 10 < (f i).variation := not_lt.mpr (hq i).2
    unfold checkSilence detectorInit
    simp [helapsed, hlev, hvar]

/-- C4: on every loudness stream in which loudness never exceeds
`SPEECH_THRESHOLD` and the frequency-bin variation never exceeds its
threshold 10, the completion signal fires at the first check past
`FALLBACK_TIMEOUT` — strictly later than `FALLBACK_TIMEOUT` but at most one
sample interval `delta` after it — and no completion ever fires later: at
every subsequent check the recorded completion time is unchanged. -/
theorem fallback_bound (delta : Nat) (hd : 0 < delta) (f : Nat → AudioSample)
    (hq : ∀ j, (f j).level ≤ SPEECH_THRESHOLD ∧ (f j).variation ≤ 10) :
    (runDetector delta f (FALLBACK_TIMEOUT / delta + 1)).completedAt =
      some ((FALLBACK_TIMEOUT / delta + 1) * delta) ∧
    FALLBACK_TIMEOUT < (FALLBACK_TIMEOUT / delta + 1) * delta ∧
    (FALLBACK_TIMEOUT / delta + 1) * delta ≤ FALLBACK_TIMEOUT + delta ∧
    ∀ n, FALLBACK_TIMEOUT / delta + 1 ≤ n →
      (runDetector delta f n).completedAt =
        some ((FALLBACK_TIMEOUT / delta + 1) * delta) := by
  have hdm := Nat.div_add_mod FALLBACK_TIMEOUT delta
  have hmlt := Nat.mod_lt FALLBACK_TIMEOUT hd
  have hbound1 : FALLBACK_TIMEOUT < (FALLBACK_TIMEOUT / delta + 1) * delta := by
    calc FALLBACK_TIMEOUT
        = delta * (FALLBACK_TIMEOUT / delta) + FALLBACK_TIMEOUT % delta :=
          hdm.symm
      _ < delta * (FALLBACK_TIMEOUT / delta) + delta := by omega
      _ = (FALLBACK_TIMEOUT / delta + 1) * delta := by ring
  have hbound2 :
      (FALLBACK_TIMEOUT / delta + 1) * delta ≤ FALLBACK_TIMEOUT + delta := by
    have h3 : (FALLBACK_TIMEOUT / delta) * delta ≤ FALLBACK_TIMEOUT :=
      Nat.div_mul_le_self FALLBACK_TIMEOUT delta
    calc (FALLBACK_TIMEOUT / delta + 1) * delta
        = (FALLBACK_TIMEOUT / delta) * delta + delta := by ring
      _ ≤ FALLBACK_TIMEOUT + delta := by omega
  have hstep : runDetector delta f (FALLBACK_TIMEOUT / delta + 1) =
      { speechDetected := false, silenceStartedAt := none
        completedAt := some ((FALLBACK_TIMEOUT / delta + 1) * delta)
        completions := 1 } := by
    show checkSilence delta (FALLBACK_TIMEOUT / delta)
      (f (FALLBACK_TIMEOUT / delta))
      (runDetector delta f (FALLBACK_TIMEOUT / delta)) = _
    rw [runDetector_quiet delta f hq (FALLBACK_TIMEOUT / delta) (le_refl _)]
    unfold checkSilence detectorInit
    simp [hbound1]
  have hfrozen : ∀ n, FALLBACK_TIMEOUT / delta + 1 ≤ n →
      runDetector delta f n = runDetector delta f (FALLBACK_TIMEOUT / delta + 1) := by
    intro n
    induction n with
    | zero => intro hn; exact absurd hn (Nat.not_succ_le_zero _)
    | succ m ihm =>
      intro hn
      rcases Nat.lt_or_ge (FALLBACK_TIMEOUT / delta + 1) (m + 1) with hlt | hge
      · have hm : FALLBACK_TIMEOUT / delta + 1 ≤ m := by omega
        show checkSilence delta m (f m) (runDetector delta f m) = _
        rw [ihm hm]
        exact checkSilence_frozen delta m (f m) _ (by rw [hstep]; rfl)
      · have hEq : m + 1 = FALLBACK_TIMEOUT / delta + 1 := by omega
        rw [hEq]
  exact ⟨by rw [hstep], hbound1, hbound2,
    fun n hn => by rw [hfrozen n hn, hstep]⟩

/-- Witness for `fallback_bound`: at a 50 ms check cadence on a fully silent
stream, completion fires at check 201, elapsed 10050 ms — strictly past the
10000 ms fallback timeout and within one sample interval of it. -/
theorem fallback_bound_witness :
    (0 : Nat) < 50 ∧
    (runDetector 50 (fun _ => { level := 0, variation := 0 }) 201).completedAt =
      some 10050 ∧
    FALLBACK_TIMEOUT < 10050 ∧ 10050 ≤ FALLBACK_TIMEOUT + 50 := by
  have h := fallback_bound 50 (by decide)
    (fun _ => { level := 0, variation := 0 })
    (fun j => ⟨by show (0 : Rat) ≤ SPEECH_THRESHOLD; decide,
               by show (0 : Nat) ≤ 10; decide⟩)
  exact ⟨by decide, h.1, h.2.1, h.2.2.1⟩

/-- The wake-listener mode-change cleanup never touches either engine's
configured locale. -/
theorem modeChangeEffect_lang (prev st : KioskState) :
    (modeChangeEffect prev st).mainLang = st.mainLang ∧
    (modeChangeEffect prev st).wakeLang = st.wakeLang := by
  unfold modeChangeEffect
  split <;> simp

/-- The avatar-speaking management effect never touches either locale. -/
theorem echoEffect_lang (st : KioskState) :
    (echoEffect st).mainLang = st.mainLang ∧
    (echoEffect st).wakeLang = st.wakeLang := by
  unfold echoEffect
  split_ifs <;> simp

/-- The main/wake coordination effect never touches either locale. -/
theorem coordEffect_lang (st : KioskState) :
    (coordEffect st).mainLang = st.mainLang ∧
    (coordEffect st).wakeLang = st.wakeLang := by
  simp only [coordEffect]
  split <;> split <;> simp

/-- Re-rendering preserves both locales. -/
theorem runEffects_lang (prev st : KioskState) :
    (runEffects prev st).mainLang = st.mainLang ∧
    (runEffects prev st).wakeLang = st.wakeLang := by
  unfold runEffects
  split
  · exact ⟨rfl, rfl⟩
  · have h1 := modeChangeEffect_lang prev st
    have h2 := echoEffect_lang (modeChangeEffect prev st)
    have h3 := coordEffect_lang (echoEffect (modeChangeEffect prev st))
    exact ⟨h3.1.trans (h2.1.trans h1.1), h3.2.trans (h2.2.trans h1.2)⟩

/-- Firing any scheduled timer preserves both locales. -/
theorem fireTimer_lang (st : KioskState) (k : TimerKind) :
    (fireTimer st k).mainLang = st.mainLang ∧
    (fireTimer st k).wakeLang = st.wakeLang := by
  cases k with
  | echoRearm capL capS capM =>
    simp only [fireTimer]
    split_ifs <;> simp
  | coordRearm capL capS =>
    simp only [fireTimer]
    split_ifs <;> simp
  | contAutoEnable =>
    simp only [fireTimer]
    split
    · exact runEffects_lang st { st with isListening := true }
    · exact ⟨rfl, rfl⟩

/-- Draining the due-timer queue preserves both locales. -/
theorem fireDue_lang (limit fuel : Nat) (st : KioskState) :
    (fireDue limit fuel st).mainLang = st.mainLang ∧
    (fireDue limit fuel st).wakeLang = st.wakeLang := by
  induction fuel generalizing st with
  | zero => exact ⟨rfl, rfl⟩
  | succ fuel ih =>
    unfold fireDue
    split
    · exact ⟨rfl, rfl⟩
    next t _ =>
      have h1 := ih (fireTimer
        { st with now := t.fireAt, timers := removeTimer t st.timers } t.kind)
      have h2 := fireTimer_lang
        { st with now := t.fireAt, timers := removeTimer t st.timers } t.kind
      exact ⟨h1.1.trans h2.1, h1.2.trans h2.2⟩

/-- `window.handleWakeWord` preserves both locales. -/
theorem handleWakeWord_lang (st : KioskState) :
    (handleWakeWord st).mainLang = st.mainLang ∧
    (handleWakeWord st).wakeLang = st.wakeLang := by
  unfold handleWakeWord
  split
  · exact runEffects_lang st _
  · exact ⟨rfl, rfl⟩

/-- No event handler writes either engine's locale: the language-change event
updates only the session language, and every other handler goes through
`runEffects`. -/
theorem handleEv_lang (st : KioskState) (ev : KioskEv) :
    (handleEv st ev).mainLang = st.mainLang ∧
    (handleEv st ev).wakeLang = st.wakeLang := by
  cases ev with
  | avatarStart =>
    have h := runEffects_lang st
      { st with avatarSpeaking := true, isListening := false }
    exact ⟨h.1, h.2⟩
  | avatarEnd =>
    have h := runEffects_lang st (avatarEndUpdate st)
    have hu : (avatarEndUpdate st).mainLang = st.mainLang ∧
        (avatarEndUpdate st).wakeLang = st.wakeLang := by
      unfold avatarEndUpdate
      split <;> simp
    exact ⟨h.1.trans hu.1, h.2.trans hu.2⟩
  | micClick =>
    simp only [handleEv]
    split
    · have h := runEffects_lang st
        { st with mainRunning := false, isListening := false }
      exact ⟨h.1, h.2⟩
    · have h := runEffects_lang st
        { st with mainRunning := true, isListening := true }
      exact ⟨h.1, h.2⟩
  | mainEnded =>
    have h := runEffects_lang st
      { st with mainRunning := false, isListening := false }
    exact ⟨h.1, h.2⟩
  | wakeBatch f i =>
    simp only [handleEv]
    split
    · exact ⟨rfl, rfl⟩
    · split
      · exact handleWakeWord_lang st
      · exact ⟨rfl, rfl⟩
  | changeLanguage l => exact ⟨rfl, rfl⟩
  | tick => exact ⟨rfl, rfl⟩

/-- One timestamped step preserves both locales. -/
theorem stepAt_lang (st : KioskState) (T : Nat) (ev : KioskEv) :
    (stepAt st T ev).mainLang = st.mainLang ∧
    (stepAt st T ev).wakeLang = st.wakeLang := by
  unfold stepAt
  have h1 := handleEv_lang { fireDue T (st.timers.length + 4) st with now := T } ev
  have h2 := fireDue_lang T (st.timers.length + 4) st
  exact ⟨h1.1.trans h2.1, h1.2.trans h2.2⟩

/-- Running any trace preserves both locales. -/
theorem runTrace_lang (evs : List (Nat × KioskEv)) (st : KioskState) :
    (runTrace st evs).mainLang = st.mainLang ∧
    (runTrace st evs).wakeLang = st.wakeLang := by
  induction evs generalizing st with
  | nil => exact ⟨rfl, rfl⟩
  | cons e rest ih =>
    have h1 := ih (stepAt st e.1 e.2)
    have h2 := stepAt_lang st e.1 e.2
    exact ⟨h1.1.trans h2.1, h1.2.trans h2.2⟩

/-- C10: both recognition engines are constructed with the locale fixed to
'en-US', and no reachable sequence of events — avatar speech, microphone
clicks, engine endings, wake batches, timer firings, or mid-session language
changes — ever changes it: in every reachable state both locales still read
'en-US', independent of the session language. -/
theorem recognition_locale_constant (evs : List (Nat × KioskEv)) :
    (runTrace initState evs).mainLang = "en-US" ∧
    (runTrace initState evs).wakeLang = "en-US" := by
  have h := runTrace_lang evs initState
  exact ⟨h.1, h.2⟩

end Kiosk
